import Mathlib

/-!
Shallow embedding of `map/guides_manager.cpp` (the Guides-on-Map controller).

The controller is modelled as a pure state machine.  Machine state mirrors the
`GuidesManager` members; network requests are tracked by an explicit list of
pending request numbers; the two API callbacks of `RequestGuides` become pure
state transformers; listener invocations are recorded in event logs.  External
collaborators that live outside `src/` (the drape tile-scale computation, the
geometry intersection score, the bookmark catalog, URL helpers and the
in-header member initializers) are modelled from the spec and marked as such.
-/

/-- The six controller states of `GuidesManager::GuidesState`. -/
inductive GuidesState where
  | Disabled
  | Enabled
  | HasData
  | NoData
  | NetworkError
  | FatalNetworkError
deriving DecidableEq, Repr

/-- Screen descriptor.  `localRectEmptyInterior` models
`screen.GlobalRect().GetLocalRect().IsEmptyInterior()`, `scale` models
`screen.GetScale()` (doubles embedded as rationals).  `drawTileScale` is
modelled from the spec: `df::GetDrawTileScale(screen)` is not under `src/`;
the spec calls it "a zoom level derived from the screen", so it is carried as
an observation on the screen descriptor. -/
structure ScreenBase where
  localRectEmptyInterior : Bool
  scale : ℚ
  drawTileScale : Nat
deriving DecidableEq, Repr

/-- The nested guide info block of a guide record. -/
structure GuideInfo where
  id : String
  name : String
  imageUrl : String
  bookmarksCount : Nat
  hasTrack : Bool
  tourDuration : Nat
  tracksLength : ℚ
  ascent : Nat
  tag : String
deriving DecidableEq, Repr

/-- A guide record delivered by the catalog API (`guides_on_map` node). -/
structure GuidesNode where
  sightsCount : Nat
  outdoorCount : Nat
  point : ℚ × ℚ
  guideInfo : GuideInfo
deriving DecidableEq, Repr

/-- The two kinds of single-guide marks (`GuideMark::Type`). -/
inductive GuideMarkType where
  | City
  | Outdoor
deriving DecidableEq, Repr

/-- A single-guide mark as created by `UpdateGuidesMarks`. -/
structure GuideMark where
  point : ℚ × ℚ
  type : GuideMarkType
  guideId : String
  isDownloaded : Bool
  index : Nat
deriving DecidableEq, Repr

/-- A cluster mark as created by `UpdateGuidesMarks`. -/
structure ClusterMark where
  point : ℚ × ℚ
  sightsCount : Nat
  outdoorCount : Nat
  index : Nat
deriving DecidableEq, Repr

/-- Discriminated payload of a gallery item (`GuidesGallery::Item::Type` with
its city/outdoors params). -/
inductive GalleryItemType where
  | City (bookmarksCount : Nat) (trackIsAvailable : Bool)
  | Outdoor (duration : Nat) (distance : ℚ) (ascent : Nat) (tag : String)
deriving DecidableEq, Repr

/-- One gallery item (`GuidesGallery::Item`). -/
structure GalleryItem where
  guideId : String
  url : String
  imageUrl : String
  title : String
  downloaded : Bool
  type : GalleryItemType
deriving DecidableEq, Repr

/-- The gallery (`GuidesManager::GuidesGallery`). -/
structure GuidesGallery where
  items : List GalleryItem
deriving DecidableEq, Repr

/-- Machine state of the controller.  Fields mirror the `GuidesManager`
members; `pending` holds the request numbers of dispatched but undelivered
catalog requests; `stateEvents` and `galleryEvents` log listener invocations;
`downloadedGuides` is modelled from the spec: `BookmarkCatalog.HasDownloaded`
is not under `src/` and is represented by the (operation-invariant) list of
downloaded guide ids. -/
structure MState where
  state : GuidesState
  screen : ScreenBase
  zoom : Nat
  guides : List GuidesNode
  activeGuide : String
  requestCounter : Nat
  errorRequestsCount : Nat
  shownGuides : Finset String
  nextMarkIndex : Nat
  pending : List Nat
  clusterMarks : List ClusterMark
  guideMarks : List GuideMark
  selectionMarks : List (ℚ × ℚ)
  stateEvents : List GuidesState
  galleryEvents : List Bool
  downloadedGuides : List String
deriving DecidableEq

/-- The retry budget constant `kRequestAttemptsCount = 3`. -/
def kRequestAttemptsCount : Nat := 3

/-- The scale tolerance constant `kScaleEps = 0.1115`. -/
def kScaleEps : ℚ := 1115 / 10000

/-- Source predicate `GuidesManager::IsRequestParamsInitialized`:
`m_screen.GlobalRect().GetLocalRect().IsEmptyInterior() || m_zoom != 0`. -/
def isRequestParamsInitialized (s : MState) : Bool :=
  s.screen.localRectEmptyInterior || s.zoom != 0

/-- Source `GuidesManager::ChangeState`: a transition to the current state is
a no-op; a real transition fires the state listener (logged). -/
def changeState (newState : GuidesState) (s : MState) : MState :=
  if s.state = newState then s
  else { s with state := newState, stateEvents := s.stateEvents ++ [newState] }

/-- Source `GuidesManager::RequestGuides` up to the dispatch: bail out when
the request params are not initialized, otherwise increment the request
counter and dispatch a catalog query (recorded in `pending`). -/
def requestGuides (s : MState) : MState :=
  if isRequestParamsInitialized s then
    { s with requestCounter := s.requestCounter + 1,
             pending := s.pending ++ [s.requestCounter + 1] }
  else s

/-- One iteration of the mark-building loop of
`GuidesManager::UpdateGuidesMarks`. -/
def markStep (acc : MState) (g : GuidesNode) : MState :=
  if g.sightsCount + g.outdoorCount > 1 then
    { acc with
        nextMarkIndex := acc.nextMarkIndex + 1,
        clusterMarks := acc.clusterMarks ++
          [{ point := g.point, sightsCount := g.sightsCount,
             outdoorCount := g.outdoorCount, index := acc.nextMarkIndex + 1 }] }
  else
    { acc with
        nextMarkIndex := acc.nextMarkIndex + 1,
        guideMarks := acc.guideMarks ++
          [{ point := g.point,
             type := if g.sightsCount > 0 then GuideMarkType.City
                     else GuideMarkType.Outdoor,
             guideId := g.guideInfo.id,
             isDownloaded := acc.downloadedGuides.contains g.guideInfo.id,
             index := acc.nextMarkIndex + 1 }],
        shownGuides := insert g.guideInfo.id acc.shownGuides }

/-- Source `GuidesManager::UpdateActiveGuide`: clear the selection group, scan
the rendered single-guide marks for the active id, place one selection mark at
the first match, otherwise clear the active id. -/
def updateActiveGuide (s : MState) : MState :=
  match s.guideMarks.find? (fun m => m.guideId == s.activeGuide) with
  | some m => { s with selectionMarks := [m.point] }
  | none => { s with selectionMarks := [], activeGuide := "" }

/-- Source `GuidesManager::UpdateGuidesMarks`: clear the cluster and guide
mark groups, rebuild them from the guide list and re-evaluate the selection. -/
def updateGuidesMarks (s : MState) : MState :=
  updateActiveGuide
    (s.guides.foldl markStep { s with clusterMarks := [], guideMarks := [] })

/-- Source `GuidesManager::Clear`: clear the active guide, the guide list and
the error counter, then rebuild marks. -/
def clear (s : MState) : MState :=
  updateGuidesMarks
    { s with activeGuide := "", guides := [], errorRequestsCount := 0 }

/-- Body of the success lambda of `GuidesManager::RequestGuides`: discarded
only in `Disabled`; otherwise store the reply, reset the error counter, move
to `HasData`/`NoData`, rebuild marks and fire the gallery listener with
`reload = true`. -/
def onSuccessBody (guides : List GuidesNode) (s : MState) : MState :=
  if s.state = GuidesState.Disabled then s
  else
    let s1 := { s with guides := guides, errorRequestsCount := 0 }
    let s2 := if guides ≠ [] then changeState GuidesState.HasData s1
              else changeState GuidesState.NoData s1
    let s3 := updateGuidesMarks s2
    { s3 with galleryEvents := s3.galleryEvents ++ [true] }

/-- Body of the failure lambda of `GuidesManager::RequestGuides`: discarded in
`Disabled` and `FatalNetworkError`; otherwise bump the error counter, enter
`FatalNetworkError` (after `Clear`) when the budget is reached, else
`NetworkError`; finally re-request when no newer request was enqueued. -/
def onFailureBody (requestNumber : Nat) (s : MState) : MState :=
  if s.state = GuidesState.Disabled ∨ s.state = GuidesState.FatalNetworkError then s
  else
    let s1 := { s with errorRequestsCount := s.errorRequestsCount + 1 }
    let s2 := if kRequestAttemptsCount ≤ s1.errorRequestsCount then
                changeState GuidesState.FatalNetworkError (clear s1)
              else changeState GuidesState.NetworkError s1
    if requestNumber = s2.requestCounter then requestGuides s2 else s2

/-- Source `GuidesManager::SetEnabled`. -/
def setEnabled (enabled : Bool) (s : MState) : MState :=
  let newState := if enabled then GuidesState.Enabled else GuidesState.Disabled
  if s.state = newState then s
  else
    let s1 := { changeState newState (clear s) with shownGuides := ∅ }
    if enabled then requestGuides s1 else s1

/-- Source `GuidesManager::Reconnect`: only acts in `FatalNetworkError`. -/
def reconnect (s : MState) : MState :=
  if s.state ≠ GuidesState.FatalNetworkError then s
  else requestGuides (changeState GuidesState.Enabled s)

/-- Source `GuidesManager::SetActiveGuide`: idempotent on the current id. -/
def setActiveGuide (guideId : String) (s : MState) : MState :=
  if s.activeGuide = guideId then s
  else updateActiveGuide { s with activeGuide := guideId }

/-- Source `GuidesManager::OnGuideSelected`: reset the selection group to the
mark pivot, set the active guide and fire the gallery listener with
`reload = false`. -/
def onGuideSelected (m : GuideMark) (s : MState) : MState :=
  { s with selectionMarks := [m.point],
           activeGuide := m.guideId,
           galleryEvents := s.galleryEvents ++ [false] }

/-- Source `GuidesManager::UpdateViewport`.  The overlap score
`geometry::GetIntersectionScoreForPoints` is not under `src/`; modelled from
the spec as an abstract function `score` of the two screen descriptors. -/
def updateViewport (score : ScreenBase → ScreenBase → ℚ) (screen : ScreenBase)
    (s : MState) : MState :=
  let zoom := screen.drawTileScale
  if s.state = GuidesState.Disabled ∨ s.state = GuidesState.FatalNetworkError then
    { s with screen := screen, zoom := zoom }
  else if screen.localRectEmptyInterior then s
  else if isRequestParamsInitialized s ∧
          ¬ (|s.screen.scale - screen.scale| / s.screen.scale > kScaleEps) ∧
          score s.screen screen > 8 / 10 then s
  else requestGuides { s with screen := screen, zoom := zoom }

/-- Modelled from the spec: the catalog front URL constant comes from
`private.h`, which is not under `src/`; the spec only calls it "a fixed
catalog base". -/
def BOOKMARKS_CATALOG_FRONT_URL : String := "https://catalog.example"

/-- Modelled from the spec: `languages::GetCurrentNorm()` is not under
`src/`; the spec calls it "the user's current normalized language code". -/
def getCurrentNorm : String := "en"

/-- Modelled from the spec: `url::Join` is not under `src/`; the spec says
the deep link is the literal slash-separated concatenation of its parts. -/
def urlJoin (parts : List String) : String :=
  String.intercalate "/" parts

/-- Modelled from the spec: `InjectUTM` is not under `src/`; the spec says it
decorates the URL with a fixed campaign identifier. -/
def injectUTM (url campaign : String) : String :=
  url ++ "?utm_campaign=" ++ campaign

/-- Modelled from the spec: `InjectUTMTerm` is not under `src/`; the spec
says it decorates the URL with a term parameter. -/
def injectUTMTerm (url term : String) : String :=
  url ++ "&utm_term=" ++ term

/-- The campaign identifier `UTM::GuidesOnMapGallery`, modelled from the
spec's "fixed campaign identifier". -/
def utmGuidesOnMapGallery : String := "guides_on_map_gallery"

/-- The gallery item built by one loop iteration of
`GuidesManager::GetGallery` for a guide record. -/
def galleryItemOf (s : MState) (g : GuidesNode) : GalleryItem :=
  { guideId := g.guideInfo.id,
    url := injectUTMTerm
             (injectUTM
               (urlJoin [BOOKMARKS_CATALOG_FRONT_URL, getCurrentNorm,
                         "v3/mobilefront/route", g.guideInfo.id])
               utmGuidesOnMapGallery)
             (toString s.shownGuides.card),
    imageUrl := g.guideInfo.imageUrl,
    title := g.guideInfo.name,
    downloaded := s.downloadedGuides.contains g.guideInfo.id,
    type := if g.sightsCount = 1 then
              GalleryItemType.City g.guideInfo.bookmarksCount g.guideInfo.hasTrack
            else
              GalleryItemType.Outdoor g.guideInfo.tourDuration
                g.guideInfo.tracksLength g.guideInfo.ascent g.guideInfo.tag }

/-- One iteration of the loop of `GuidesManager::GetGallery`: skip every
record whose combined sights + outdoor count differs from one (`continue`),
append an item for the rest. -/
def galleryStep (s : MState) (acc : List GalleryItem) (g : GuidesNode) :
    List GalleryItem :=
  if g.outdoorCount + g.sightsCount ≠ 1 then acc
  else acc ++ [galleryItemOf s g]

/-- Source `GuidesManager::GetGallery`: a read-only pass over the guide list,
in order. -/
def getGallery (s : MState) : GuidesGallery :=
  { items := s.guides.foldl (galleryStep s) [] }

/-- Modelled from the spec: the default-constructed `ScreenBase` (the
in-header initializer of `m_screen` is not under `src/`) has a valid
non-degenerate pixel rectangle and some positive scale. -/
def initScreen : ScreenBase :=
  { localRectEmptyInterior := false, scale := 1, drawTileScale := 1 }

/-- Modelled from the spec: the in-header member initializers of
`GuidesManager` are not under `src/`.  Per the spec's lifecycle the feature
starts off (`Disabled`), the zoom starts uninitialized (0), the counters
start at 0 and all containers start empty. -/
def initState : MState :=
  { state := GuidesState.Disabled,
    screen := initScreen,
    zoom := 0,
    guides := [],
    activeGuide := "",
    requestCounter := 0,
    errorRequestsCount := 0,
    shownGuides := ∅,
    nextMarkIndex := 0,
    pending := [],
    clusterMarks := [],
    guideMarks := [],
    selectionMarks := [],
    stateEvents := [],
    galleryEvents := [],
    downloadedGuides := [] }

/-- Removal of a delivered request from the pending list. -/
def removePending (n : Nat) (s : MState) : MState :=
  { s with pending := s.pending.erase n }

/-- Operations of the controller: the mutating public entry points plus the
delivery of the two catalog callbacks for a pending request. -/
inductive Op where
  | setEnabled (b : Bool)
  | updateViewport (v : ScreenBase)
  | reconnect
  | setActiveGuide (id : String)
  | deliverSuccess (n : Nat) (guides : List GuidesNode)
  | deliverFailure (n : Nat)
  | onGuideSelected (m : GuideMark)
deriving DecidableEq, Repr

/-- One step of the controller: callbacks are only deliverable for a pending
request, whose number they consume. -/
def stepOp (score : ScreenBase → ScreenBase → ℚ) (s : MState) : Op → MState
  | Op.setEnabled b => setEnabled b s
  | Op.updateViewport v => updateViewport score v s
  | Op.reconnect => reconnect s
  | Op.setActiveGuide id => setActiveGuide id s
  | Op.deliverSuccess n gs =>
      if n ∈ s.pending then onSuccessBody gs (removePending n s) else s
  | Op.deliverFailure n =>
      if n ∈ s.pending then onFailureBody n (removePending n s) else s
  | Op.onGuideSelected m =>
      if m ∈ s.guideMarks then onGuideSelected m s else s

/-- Execution of an operation sequence from the initial state. -/
def run (score : ScreenBase → ScreenBase → ℚ) (ops : List Op) : MState :=
  ops.foldl (stepOp score) initState

/-- A state is reachable when some operation sequence produces it. -/
def Reachable (score : ScreenBase → ScreenBase → ℚ) (s : MState) : Prop :=
  ∃ ops, run score ops = s

/-- The spec's wording of the initialization predicate (§4.3): "the rectangle
has non-empty interior OR zoom ≠ 0".  Kept separate from the source's
`isRequestParamsInitialized` for comparison. -/
def specParamsInitialized (s : MState) : Bool :=
  !s.screen.localRectEmptyInterior || s.zoom != 0

/-- The spec's wording of "single" (§3): a record whose combined count does
not exceed one.  Kept separate from the source's `GetGallery` filter for
comparison. -/
def specIsSingle (g : GuidesNode) : Prop :=
  g.sightsCount + g.outdoorCount ≤ 1

/-- A constant overlap score used to instantiate concrete runs. -/
def constScore : ScreenBase → ScreenBase → ℚ := fun _ _ => 0

/-- A constant full-overlap score used to instantiate concrete runs. -/
def fullScore : ScreenBase → ScreenBase → ℚ := fun _ _ => 1

/-- A concrete guide info block used by concrete runs. -/
def giA : GuideInfo :=
  { id := "g1", name := "G", imageUrl := "", bookmarksCount := 2,
    hasTrack := true, tourDuration := 0, tracksLength := 0, ascent := 0,
    tag := "" }

/-- A concrete single guide record (one sight, no outdoor). -/
def gSingle : GuidesNode :=
  { sightsCount := 1, outdoorCount := 0, point := (0, 0), guideInfo := giA }

/-- A concrete guide record with zero combined count. -/
def gZero : GuidesNode :=
  { sightsCount := 0, outdoorCount := 0, point := (0, 0), guideInfo := giA }

/-- A concrete valid viewport. -/
def vA : ScreenBase :=
  { localRectEmptyInterior := false, scale := 1, drawTileScale := 5 }

/-- Operation sequence reaching `FatalNetworkError`: record a viewport while
disabled, enable (dispatching request 1), then deliver three consecutive
failures, each failing the latest request. -/
def cexOps : List Op :=
  [Op.updateViewport vA, Op.setEnabled true,
   Op.deliverFailure 1, Op.deliverFailure 2, Op.deliverFailure 3]

/-- The concrete reachable state after `cexOps`. -/
def cexFatal : MState := run constScore cexOps


def c5opsPre : List Op :=
  [Op.updateViewport vA, Op.setEnabled true, Op.deliverSuccess 1 [gSingle]]
def c5ops : List Op := c5opsPre ++ [Op.setEnabled true]

def c4state : MState :=
  { initState with
      screen := { localRectEmptyInterior := true, scale := 1, drawTileScale := 1 },
      zoom := 0 }

def c6state : MState := { initState with guides := [gZero] }

def c10state : MState :=
  { initState with state := GuidesState.NoData }

def vB0 : ScreenBase := { localRectEmptyInterior := false, scale := 1, drawTileScale := 5 }
def vB1 : ScreenBase := { localRectEmptyInterior := false, scale := 2, drawTileScale := 6 }
def vB2 : ScreenBase := { localRectEmptyInterior := false, scale := 2, drawTileScale := 7 }
def c8ops : List Op :=
  [Op.updateViewport vB0, Op.setEnabled true, Op.updateViewport vB1,
   Op.deliverFailure 1, Op.deliverFailure 2, Op.deliverFailure 3]
def c8pre : MState := run fullScore c8ops

/-- A concrete non-Disabled, non-Fatal state with initialized params and no
recorded failures, used to instantiate the retry-budget theorem. -/
def c7start : MState := { initState with state := GuidesState.Enabled, zoom := 5 }

/-- Delivery of `k` consecutive failure callbacks with no intervening
success, each failing the most recently dispatched request (the canonical
retry chain of the failure lambda). -/
def failStreak : Nat → MState → MState
  | 0, s => s
  | k + 1, s => failStreak k (onFailureBody s.requestCounter s)

/-- The state reached by `cexOps` just before the third failure delivery. -/
def c2pre : MState := run constScore (cexOps.take 4)

/-- The state reached by `c8ops` just after `UpdateViewport` recorded `vB1`
and dispatched request 2 for it. -/
def c8mid : MState := run fullScore (c8ops.take 3)

/-- The frame of a discarded reply: the guide list, all marks, the shown set,
the mark index, both counters, the state and both listener logs are those of
the original state. -/
def callbackUntouched (s t : MState) : Prop :=
  t.guides = s.guides ∧ t.clusterMarks = s.clusterMarks ∧
  t.guideMarks = s.guideMarks ∧ t.selectionMarks = s.selectionMarks ∧
  t.shownGuides = s.shownGuides ∧ t.nextMarkIndex = s.nextMarkIndex ∧
  t.requestCounter = s.requestCounter ∧
  t.errorRequestsCount = s.errorRequestsCount ∧ t.state = s.state ∧
  t.stateEvents = s.stateEvents ∧ t.galleryEvents = s.galleryEvents

/-- Controller invariant: in `FatalNetworkError` the error counter has been
cleared, `HasData` carries a non-empty guide list and `NoData` an empty one. -/
def CoreInv (s : MState) : Prop :=
  (s.state = GuidesState.FatalNetworkError → s.errorRequestsCount = 0) ∧
  (s.state = GuidesState.HasData → s.guides ≠ []) ∧
  (s.state = GuidesState.NoData → s.guides = [])

@[simp] lemma requestGuides_state (s : MState) : (requestGuides s).state = s.state := by
  unfold requestGuides; split <;> rfl

@[simp] lemma requestGuides_guides (s : MState) : (requestGuides s).guides = s.guides := by
  unfold requestGuides; split <;> rfl

@[simp] lemma requestGuides_errc (s : MState) :
    (requestGuides s).errorRequestsCount = s.errorRequestsCount := by
  unfold requestGuides; split <;> rfl

@[simp] lemma requestGuides_screen (s : MState) : (requestGuides s).screen = s.screen := by
  unfold requestGuides; split <;> rfl

@[simp] lemma requestGuides_zoom (s : MState) : (requestGuides s).zoom = s.zoom := by
  unfold requestGuides; split <;> rfl

@[simp] lemma requestGuides_shownGuides (s : MState) :
    (requestGuides s).shownGuides = s.shownGuides := by
  unfold requestGuides; split <;> rfl

@[simp] lemma requestGuides_activeGuide (s : MState) :
    (requestGuides s).activeGuide = s.activeGuide := by
  unfold requestGuides; split <;> rfl

@[simp] lemma requestGuides_stateEvents (s : MState) :
    (requestGuides s).stateEvents = s.stateEvents := by
  unfold requestGuides; split <;> rfl

@[simp] lemma requestGuides_galleryEvents (s : MState) :
    (requestGuides s).galleryEvents = s.galleryEvents := by
  unfold requestGuides; split <;> rfl

@[simp] lemma changeState_state (n : GuidesState) (s : MState) :
    (changeState n s).state = n := by
  unfold changeState; split
  · next h => exact h
  · rfl

@[simp] lemma changeState_guides (n : GuidesState) (s : MState) :
    (changeState n s).guides = s.guides := by
  unfold changeState; split <;> rfl

@[simp] lemma changeState_errc (n : GuidesState) (s : MState) :
    (changeState n s).errorRequestsCount = s.errorRequestsCount := by
  unfold changeState; split <;> rfl

@[simp] lemma changeState_requestCounter (n : GuidesState) (s : MState) :
    (changeState n s).requestCounter = s.requestCounter := by
  unfold changeState; split <;> rfl

@[simp] lemma changeState_pending (n : GuidesState) (s : MState) :
    (changeState n s).pending = s.pending := by
  unfold changeState; split <;> rfl

@[simp] lemma changeState_screen (n : GuidesState) (s : MState) :
    (changeState n s).screen = s.screen := by
  unfold changeState; split <;> rfl

@[simp] lemma changeState_zoom (n : GuidesState) (s : MState) :
    (changeState n s).zoom = s.zoom := by
  unfold changeState; split <;> rfl

@[simp] lemma changeState_shownGuides (n : GuidesState) (s : MState) :
    (changeState n s).shownGuides = s.shownGuides := by
  unfold changeState; split <;> rfl

@[simp] lemma changeState_activeGuide (n : GuidesState) (s : MState) :
    (changeState n s).activeGuide = s.activeGuide := by
  unfold changeState; split <;> rfl

@[simp] lemma changeState_galleryEvents (n : GuidesState) (s : MState) :
    (changeState n s).galleryEvents = s.galleryEvents := by
  unfold changeState; split <;> rfl

@[simp] lemma markStep_state (a : MState) (g : GuidesNode) :
    (markStep a g).state = a.state := by
  unfold markStep; split <;> rfl

@[simp] lemma markStep_guides (a : MState) (g : GuidesNode) :
    (markStep a g).guides = a.guides := by
  unfold markStep; split <;> rfl

@[simp] lemma markStep_errc (a : MState) (g : GuidesNode) :
    (markStep a g).errorRequestsCount = a.errorRequestsCount := by
  unfold markStep; split <;> rfl

@[simp] lemma markStep_requestCounter (a : MState) (g : GuidesNode) :
    (markStep a g).requestCounter = a.requestCounter := by
  unfold markStep; split <;> rfl

@[simp] lemma markStep_pending (a : MState) (g : GuidesNode) :
    (markStep a g).pending = a.pending := by
  unfold markStep; split <;> rfl

@[simp] lemma markStep_screen (a : MState) (g : GuidesNode) :
    (markStep a g).screen = a.screen := by
  unfold markStep; split <;> rfl

@[simp] lemma markStep_zoom (a : MState) (g : GuidesNode) :
    (markStep a g).zoom = a.zoom := by
  unfold markStep; split <;> rfl

@[simp] lemma markStep_activeGuide (a : MState) (g : GuidesNode) :
    (markStep a g).activeGuide = a.activeGuide := by
  unfold markStep; split <;> rfl

@[simp] lemma markStep_stateEvents (a : MState) (g : GuidesNode) :
    (markStep a g).stateEvents = a.stateEvents := by
  unfold markStep; split <;> rfl

@[simp] lemma markStep_galleryEvents (a : MState) (g : GuidesNode) :
    (markStep a g).galleryEvents = a.galleryEvents := by
  unfold markStep; split <;> rfl

lemma markStep_shownGuides_subset (a : MState) (g : GuidesNode) :
    a.shownGuides ⊆ (markStep a g).shownGuides := by
  unfold markStep; split
  · exact Finset.Subset.refl _
  · exact Finset.subset_insert _ _

lemma foldl_markStep_state (l : List GuidesNode) :
    ∀ a : MState, (l.foldl markStep a).state = a.state := by
  induction l with
  | nil => intro a; rfl
  | cons g t ih => intro a; rw [List.foldl_cons, ih, markStep_state]

lemma foldl_markStep_guides (l : List GuidesNode) :
    ∀ a : MState, (l.foldl markStep a).guides = a.guides := by
  induction l with
  | nil => intro a; rfl
  | cons g t ih => intro a; rw [List.foldl_cons, ih, markStep_guides]

lemma foldl_markStep_errc (l : List GuidesNode) :
    ∀ a : MState, (l.foldl markStep a).errorRequestsCount = a.errorRequestsCount := by
  induction l with
  | nil => intro a; rfl
  | cons g t ih => intro a; rw [List.foldl_cons, ih, markStep_errc]

lemma foldl_markStep_requestCounter (l : List GuidesNode) :
    ∀ a : MState, (l.foldl markStep a).requestCounter = a.requestCounter := by
  induction l with
  | nil => intro a; rfl
  | cons g t ih => intro a; rw [List.foldl_cons, ih, markStep_requestCounter]

lemma foldl_markStep_pending (l : List GuidesNode) :
    ∀ a : MState, (l.foldl markStep a).pending = a.pending := by
  induction l with
  | nil => intro a; rfl
  | cons g t ih => intro a; rw [List.foldl_cons, ih, markStep_pending]

lemma foldl_markStep_screen (l : List GuidesNode) :
    ∀ a : MState, (l.foldl markStep a).screen = a.screen := by
  induction l with
  | nil => intro a; rfl
  | cons g t ih => intro a; rw [List.foldl_cons, ih, markStep_screen]

lemma foldl_markStep_zoom (l : List GuidesNode) :
    ∀ a : MState, (l.foldl markStep a).zoom = a.zoom := by
  induction l with
  | nil => intro a; rfl
  | cons g t ih => intro a; rw [List.foldl_cons, ih, markStep_zoom]

lemma foldl_markStep_stateEvents (l : List GuidesNode) :
    ∀ a : MState, (l.foldl markStep a).stateEvents = a.stateEvents := by
  induction l with
  | nil => intro a; rfl
  | cons g t ih => intro a; rw [List.foldl_cons, ih, markStep_stateEvents]

lemma foldl_markStep_galleryEvents (l : List GuidesNode) :
    ∀ a : MState, (l.foldl markStep a).galleryEvents = a.galleryEvents := by
  induction l with
  | nil => intro a; rfl
  | cons g t ih => intro a; rw [List.foldl_cons, ih, markStep_galleryEvents]

lemma foldl_markStep_shownGuides_subset (l : List GuidesNode) :
    ∀ a : MState, a.shownGuides ⊆ (l.foldl markStep a).shownGuides := by
  induction l with
  | nil => intro a; exact Finset.Subset.refl _
  | cons g t ih =>
      intro a
      rw [List.foldl_cons]
      exact Finset.Subset.trans (markStep_shownGuides_subset a g) (ih (markStep a g))

@[simp] lemma updateActiveGuide_state (s : MState) :
    (updateActiveGuide s).state = s.state := by
  unfold updateActiveGuide; split <;> rfl

@[simp] lemma updateActiveGuide_guides (s : MState) :
    (updateActiveGuide s).guides = s.guides := by
  unfold updateActiveGuide; split <;> rfl

@[simp] lemma updateActiveGuide_errc (s : MState) :
    (updateActiveGuide s).errorRequestsCount = s.errorRequestsCount := by
  unfold updateActiveGuide; split <;> rfl

@[simp] lemma updateActiveGuide_requestCounter (s : MState) :
    (updateActiveGuide s).requestCounter = s.requestCounter := by
  unfold updateActiveGuide; split <;> rfl

@[simp] lemma updateActiveGuide_pending (s : MState) :
    (updateActiveGuide s).pending = s.pending := by
  unfold updateActiveGuide; split <;> rfl

@[simp] lemma updateActiveGuide_screen (s : MState) :
    (updateActiveGuide s).screen = s.screen := by
  unfold updateActiveGuide; split <;> rfl

@[simp] lemma updateActiveGuide_zoom (s : MState) :
    (updateActiveGuide s).zoom = s.zoom := by
  unfold updateActiveGuide; split <;> rfl

@[simp] lemma updateActiveGuide_shownGuides (s : MState) :
    (updateActiveGuide s).shownGuides = s.shownGuides := by
  unfold updateActiveGuide; split <;> rfl

@[simp] lemma updateActiveGuide_stateEvents (s : MState) :
    (updateActiveGuide s).stateEvents = s.stateEvents := by
  unfold updateActiveGuide; split <;> rfl

@[simp] lemma updateActiveGuide_galleryEvents (s : MState) :
    (updateActiveGuide s).galleryEvents = s.galleryEvents := by
  unfold updateActiveGuide; split <;> rfl

@[simp] lemma updateGuidesMarks_state (s : MState) :
    (updateGuidesMarks s).state = s.state := by
  unfold updateGuidesMarks
  rw [updateActiveGuide_state, foldl_markStep_state]

@[simp] lemma updateGuidesMarks_guides (s : MState) :
    (updateGuidesMarks s).guides = s.guides := by
  unfold updateGuidesMarks
  rw [updateActiveGuide_guides, foldl_markStep_guides]

@[simp] lemma updateGuidesMarks_errc (s : MState) :
    (updateGuidesMarks s).errorRequestsCount = s.errorRequestsCount := by
  unfold updateGuidesMarks
  rw [updateActiveGuide_errc, foldl_markStep_errc]

@[simp] lemma updateGuidesMarks_requestCounter (s : MState) :
    (updateGuidesMarks s).requestCounter = s.requestCounter := by
  unfold updateGuidesMarks
  rw [updateActiveGuide_requestCounter, foldl_markStep_requestCounter]

@[simp] lemma updateGuidesMarks_pending (s : MState) :
    (updateGuidesMarks s).pending = s.pending := by
  unfold updateGuidesMarks
  rw [updateActiveGuide_pending, foldl_markStep_pending]

@[simp] lemma updateGuidesMarks_screen (s : MState) :
    (updateGuidesMarks s).screen = s.screen := by
  unfold updateGuidesMarks
  rw [updateActiveGuide_screen, foldl_markStep_screen]

@[simp] lemma updateGuidesMarks_zoom (s : MState) :
    (updateGuidesMarks s).zoom = s.zoom := by
  unfold updateGuidesMarks
  rw [updateActiveGuide_zoom, foldl_markStep_zoom]

@[simp] lemma updateGuidesMarks_stateEvents (s : MState) :
    (updateGuidesMarks s).stateEvents = s.stateEvents := by
  unfold updateGuidesMarks
  rw [updateActiveGuide_stateEvents, foldl_markStep_stateEvents]

@[simp] lemma updateGuidesMarks_galleryEvents (s : MState) :
    (updateGuidesMarks s).galleryEvents = s.galleryEvents := by
  unfold updateGuidesMarks
  rw [updateActiveGuide_galleryEvents, foldl_markStep_galleryEvents]

lemma updateGuidesMarks_shownGuides_subset (s : MState) :
    s.shownGuides ⊆ (updateGuidesMarks s).shownGuides := by
  unfold updateGuidesMarks
  rw [updateActiveGuide_shownGuides]
  exact foldl_markStep_shownGuides_subset s.guides
    { s with clusterMarks := [], guideMarks := [] }

lemma clear_eq (s : MState) :
    clear s = { s with activeGuide := "", guides := [], errorRequestsCount := 0,
                       clusterMarks := [], guideMarks := [], selectionMarks := [] } := rfl

@[simp] lemma removePending_state (n : Nat) (s : MState) :
    (removePending n s).state = s.state := rfl

@[simp] lemma removePending_guides (n : Nat) (s : MState) :
    (removePending n s).guides = s.guides := rfl

@[simp] lemma removePending_errc (n : Nat) (s : MState) :
    (removePending n s).errorRequestsCount = s.errorRequestsCount := rfl

@[simp] lemma removePending_requestCounter (n : Nat) (s : MState) :
    (removePending n s).requestCounter = s.requestCounter := rfl

@[simp] lemma removePending_shownGuides (n : Nat) (s : MState) :
    (removePending n s).shownGuides = s.shownGuides := rfl

@[simp] lemma removePending_screen (n : Nat) (s : MState) :
    (removePending n s).screen = s.screen := rfl

@[simp] lemma removePending_zoom (n : Nat) (s : MState) :
    (removePending n s).zoom = s.zoom := rfl

/-- The failure callback is a no-op on the absorbed states. -/
lemma onFailureBody_absorbed (n : Nat) (s : MState)
    (h : s.state = GuidesState.Disabled ∨ s.state = GuidesState.FatalNetworkError) :
    onFailureBody n s = s := by
  unfold onFailureBody; rw [if_pos h]

/-- The success callback is a no-op on `Disabled`. -/
lemma onSuccessBody_disabled (gs : List GuidesNode) (s : MState)
    (h : s.state = GuidesState.Disabled) : onSuccessBody gs s = s := by
  unfold onSuccessBody; rw [if_pos h]

/-- Effect of a processed success callback on state, guides and the error
counter. -/
lemma onSuccessBody_effect (gs : List GuidesNode) (s : MState)
    (h : s.state ≠ GuidesState.Disabled) :
    (onSuccessBody gs s).state
        = (if gs = [] then GuidesState.NoData else GuidesState.HasData) ∧
    (onSuccessBody gs s).guides = gs ∧
    (onSuccessBody gs s).errorRequestsCount = 0 := by
  unfold onSuccessBody
  rw [if_neg h]
  by_cases hg : gs = []
  · subst hg; simp
  · simp [hg]

/-- Effect of a processed failure callback on state, guides and the error
counter, split by whether the retry budget is reached. -/
lemma onFailureBody_effect (n : Nat) (s : MState)
    (h1 : s.state ≠ GuidesState.Disabled)
    (h2 : s.state ≠ GuidesState.FatalNetworkError) :
    (kRequestAttemptsCount ≤ s.errorRequestsCount + 1 →
       (onFailureBody n s).state = GuidesState.FatalNetworkError ∧
       (onFailureBody n s).errorRequestsCount = 0 ∧
       (onFailureBody n s).guides = []) ∧
    (s.errorRequestsCount + 1 < kRequestAttemptsCount →
       (onFailureBody n s).state = GuidesState.NetworkError ∧
       (onFailureBody n s).errorRequestsCount = s.errorRequestsCount + 1 ∧
       (onFailureBody n s).guides = s.guides) := by
  unfold onFailureBody
  rw [if_neg (by simp [h1, h2])]
  dsimp only
  constructor
  · intro hb
    rw [if_pos hb]
    split <;> simp [clear_eq]
  · intro hb
    rw [if_neg (Nat.not_le_of_lt hb)]
    split <;> simp

/-- `SetEnabled` is a no-op when the target state is already current. -/
lemma setEnabled_noop (b : Bool) (s : MState)
    (h : s.state = (if b then GuidesState.Enabled else GuidesState.Disabled)) :
    setEnabled b s = s := by
  unfold setEnabled
  dsimp only
  rw [if_pos h]

/-- Core effect of a state-changing `SetEnabled` on state, error counter and
guides. -/
lemma setEnabled_core (b : Bool) (s : MState)
    (h : s.state ≠ (if b then GuidesState.Enabled else GuidesState.Disabled)) :
    (setEnabled b s).state = (if b then GuidesState.Enabled else GuidesState.Disabled) ∧
    (setEnabled b s).errorRequestsCount = 0 ∧
    (setEnabled b s).guides = [] := by
  unfold setEnabled
  dsimp only
  rw [if_neg h]
  cases b <;> simp [clear_eq]

/-- `UpdateViewport` never changes state, error counter or guides. -/
lemma updateViewport_core (score : ScreenBase → ScreenBase → ℚ)
    (v : ScreenBase) (s : MState) :
    (updateViewport score v s).state = s.state ∧
    (updateViewport score v s).errorRequestsCount = s.errorRequestsCount ∧
    (updateViewport score v s).guides = s.guides := by
  unfold updateViewport
  dsimp only
  split
  · exact ⟨rfl, rfl, rfl⟩
  · split
    · exact ⟨rfl, rfl, rfl⟩
    · split
      · exact ⟨rfl, rfl, rfl⟩
      · simp

/-- `Reconnect` is a no-op outside `FatalNetworkError` and moves to `Enabled`
otherwise, preserving error counter and guides. -/
lemma reconnect_core (s : MState) :
    reconnect s = s ∨
    ((reconnect s).state = GuidesState.Enabled ∧
     (reconnect s).errorRequestsCount = s.errorRequestsCount ∧
     (reconnect s).guides = s.guides) := by
  unfold reconnect
  split
  · exact Or.inl rfl
  · right; simp

/-- `SetActiveGuide` never changes state, error counter or guides. -/
lemma setActiveGuide_core (id : String) (s : MState) :
    (setActiveGuide id s).state = s.state ∧
    (setActiveGuide id s).errorRequestsCount = s.errorRequestsCount ∧
    (setActiveGuide id s).guides = s.guides := by
  unfold setActiveGuide
  split
  · exact ⟨rfl, rfl, rfl⟩
  · simp

lemma coreInv_of_fields {s t : MState} (h : CoreInv s)
    (hs : t.state = s.state) (he : t.errorRequestsCount = s.errorRequestsCount)
    (hg : t.guides = s.guides) : CoreInv t := by
  unfold CoreInv at h ⊢
  rw [hs, he, hg]
  exact h

lemma coreInv_init : CoreInv initState := by
  refine ⟨?_, ?_, ?_⟩ <;> intro hst <;> simp [initState] at hst ⊢

lemma coreInv_stepOp (score : ScreenBase → ScreenBase → ℚ) (s : MState)
    (op : Op) (h : CoreInv s) : CoreInv (stepOp score s op) := by
  cases op with
  | setEnabled b =>
      show CoreInv (setEnabled b s)
      by_cases hb : s.state = (if b then GuidesState.Enabled else GuidesState.Disabled)
      · rw [setEnabled_noop b s hb]; exact h
      · obtain ⟨h1, h2, h3⟩ := setEnabled_core b s hb
        refine ⟨fun hst => h2, fun hst => ?_, fun hst => h3⟩
        rw [h1] at hst
        cases b <;> simp at hst
  | updateViewport v =>
      show CoreInv (updateViewport score v s)
      obtain ⟨h1, h2, h3⟩ := updateViewport_core score v s
      exact coreInv_of_fields h h1 h2 h3
  | reconnect =>
      show CoreInv (reconnect s)
      rcases reconnect_core s with heq | ⟨h1, h2, h3⟩
      · rw [heq]; exact h
      · refine ⟨fun hst => ?_, fun hst => ?_, fun hst => ?_⟩ <;>
          rw [h1] at hst <;> cases hst
  | setActiveGuide id =>
      show CoreInv (setActiveGuide id s)
      obtain ⟨h1, h2, h3⟩ := setActiveGuide_core id s
      exact coreInv_of_fields h h1 h2 h3
  | deliverSuccess n gs =>
      show CoreInv (if n ∈ s.pending then onSuccessBody gs (removePending n s) else s)
      split
      · by_cases hd : (removePending n s).state = GuidesState.Disabled
        · rw [onSuccessBody_disabled gs _ hd]
          exact coreInv_of_fields h rfl rfl rfl
        · obtain ⟨h1, h2, h3⟩ := onSuccessBody_effect gs (removePending n s) hd
          by_cases hg : gs = []
          · refine ⟨fun hst => ?_, fun hst => ?_, fun hst => ?_⟩
            · rw [h1, if_pos hg] at hst; cases hst
            · rw [h1, if_pos hg] at hst; cases hst
            · rw [h2, hg]
          · refine ⟨fun hst => ?_, fun hst => ?_, fun hst => ?_⟩
            · rw [h1, if_neg hg] at hst; cases hst
            · rw [h2]; exact hg
            · rw [h1, if_neg hg] at hst; cases hst
      · exact h
  | deliverFailure n =>
      show CoreInv (if n ∈ s.pending then onFailureBody n (removePending n s) else s)
      split
      · by_cases hd : (removePending n s).state = GuidesState.Disabled ∨
            (removePending n s).state = GuidesState.FatalNetworkError
        · rw [onFailureBody_absorbed n _ hd]
          exact coreInv_of_fields h rfl rfl rfl
        · push_neg at hd
          obtain ⟨hbig, hsmall⟩ := onFailureBody_effect n (removePending n s) hd.1 hd.2
          by_cases hb : kRequestAttemptsCount ≤ (removePending n s).errorRequestsCount + 1
          · obtain ⟨h1, h2, h3⟩ := hbig hb
            refine ⟨fun hst => h2, fun hst => ?_, fun hst => ?_⟩
            · rw [h1] at hst; cases hst
            · exact h3
          · obtain ⟨h1, h2, h3⟩ := hsmall (Nat.lt_of_not_le hb)
            refine ⟨fun hst => ?_, fun hst => ?_, fun hst => ?_⟩ <;>
              rw [h1] at hst <;> cases hst
      · exact h
  | onGuideSelected m =>
      show CoreInv (if m ∈ s.guideMarks then onGuideSelected m s else s)
      split
      · exact coreInv_of_fields h rfl rfl rfl
      · exact h

lemma coreInv_foldl (score : ScreenBase → ScreenBase → ℚ) :
    ∀ (ops : List Op) (s : MState), CoreInv s →
      CoreInv (ops.foldl (stepOp score) s) := by
  intro ops
  induction ops with
  | nil => intro s h; exact h
  | cons op t ih =>
      intro s h
      rw [List.foldl_cons]
      exact ih _ (coreInv_stepOp score s op h)

/-- Every reachable controller state satisfies the core invariant. -/
lemma coreInv_reachable (score : ScreenBase → ScreenBase → ℚ) (s : MState)
    (h : Reachable score s) : CoreInv s := by
  obtain ⟨ops, rfl⟩ := h
  exact coreInv_foldl score ops initState coreInv_init

lemma requestGuides_requestCounter (s : MState) :
    (requestGuides s).requestCounter
      = if isRequestParamsInitialized s then s.requestCounter + 1
        else s.requestCounter := by
  unfold requestGuides
  split <;> rfl

lemma requestGuides_pending (s : MState) :
    (requestGuides s).pending
      = if isRequestParamsInitialized s then s.pending ++ [s.requestCounter + 1]
        else s.pending := by
  unfold requestGuides
  split <;> rfl

lemma isRequestParamsInitialized_congr {s t : MState}
    (hs : t.screen = s.screen) (hz : t.zoom = s.zoom) :
    isRequestParamsInitialized t = isRequestParamsInitialized s := by
  unfold isRequestParamsInitialized
  rw [hs, hz]

lemma onFailureBody_shownGuides (n : Nat) (s : MState) :
    (onFailureBody n s).shownGuides = s.shownGuides := by
  unfold onFailureBody
  split
  · rfl
  · dsimp only
    split <;> split <;> simp [clear_eq]

lemma onSuccessBody_shownGuides_subset (gs : List GuidesNode) (s : MState) :
    s.shownGuides ⊆ (onSuccessBody gs s).shownGuides := by
  unfold onSuccessBody
  split
  · exact Finset.Subset.refl _
  · dsimp only
    refine Finset.Subset.trans ?_ (updateGuidesMarks_shownGuides_subset _)
    split <;> simp

lemma updateViewport_shownGuides (score : ScreenBase → ScreenBase → ℚ)
    (v : ScreenBase) (s : MState) :
    (updateViewport score v s).shownGuides = s.shownGuides := by
  unfold updateViewport
  dsimp only
  split
  · rfl
  · split
    · rfl
    · split
      · rfl
      · simp

lemma reconnect_shownGuides (s : MState) :
    (reconnect s).shownGuides = s.shownGuides := by
  unfold reconnect
  split
  · rfl
  · simp

lemma setActiveGuide_shownGuides (id : String) (s : MState) :
    (setActiveGuide id s).shownGuides = s.shownGuides := by
  unfold setActiveGuide
  split
  · rfl
  · simp

lemma stepOp_shownGuides_mono (score : ScreenBase → ScreenBase → ℚ)
    (s : MState) (op : Op) (h : ∀ b, op ≠ Op.setEnabled b) :
    s.shownGuides ⊆ (stepOp score s op).shownGuides := by
  cases op with
  | setEnabled b => exact absurd rfl (h b)
  | updateViewport v =>
      show s.shownGuides ⊆ (updateViewport score v s).shownGuides
      rw [updateViewport_shownGuides]
  | reconnect =>
      show s.shownGuides ⊆ (reconnect s).shownGuides
      rw [reconnect_shownGuides]
  | setActiveGuide id =>
      show s.shownGuides ⊆ (setActiveGuide id s).shownGuides
      rw [setActiveGuide_shownGuides]
  | deliverSuccess n gs =>
      show s.shownGuides ⊆
        (if n ∈ s.pending then onSuccessBody gs (removePending n s) else s).shownGuides
      split
      · exact onSuccessBody_shownGuides_subset gs (removePending n s)
      · exact Finset.Subset.refl _
  | deliverFailure n =>
      show s.shownGuides ⊆
        (if n ∈ s.pending then onFailureBody n (removePending n s) else s).shownGuides
      split
      · rw [onFailureBody_shownGuides]; exact Finset.Subset.refl _
      · exact Finset.Subset.refl _
  | onGuideSelected m =>
      show s.shownGuides ⊆
        (if m ∈ s.guideMarks then onGuideSelected m s else s).shownGuides
      split
      · exact Finset.Subset.refl _
      · exact Finset.Subset.refl _

/-- Full effect of a state-changing `SetEnabled(true)`. -/
lemma setEnabled_true_effect (s : MState) (h : s.state ≠ GuidesState.Enabled) :
    (setEnabled true s).state = GuidesState.Enabled ∧
    (setEnabled true s).guides = [] ∧
    (setEnabled true s).activeGuide = "" ∧
    (setEnabled true s).errorRequestsCount = 0 ∧
    (setEnabled true s).shownGuides = ∅ ∧
    (setEnabled true s).stateEvents = s.stateEvents ++ [GuidesState.Enabled] ∧
    (setEnabled true s).requestCounter
      = (if isRequestParamsInitialized s then s.requestCounter + 1
         else s.requestCounter) ∧
    (setEnabled true s).pending
      = (if isRequestParamsInitialized s then s.pending ++ [s.requestCounter + 1]
         else s.pending) := by
  unfold setEnabled
  dsimp only
  simp only [reduceIte]
  rw [if_neg h]
  have hcs : changeState GuidesState.Enabled (clear s)
      = { clear s with state := GuidesState.Enabled,
                       stateEvents := (clear s).stateEvents ++ [GuidesState.Enabled] } := by
    unfold changeState
    rw [if_neg (by rw [clear_eq]; exact h)]
  rw [hcs]
  refine ⟨?_, ?_, ?_, ?_, ?_, ?_, ?_, ?_⟩
  · simp [clear_eq]
  · simp [clear_eq]
  · simp [clear_eq]
  · simp [clear_eq]
  · simp [clear_eq]
  · simp [clear_eq]
  · rw [requestGuides_requestCounter]
    simp [isRequestParamsInitialized, clear_eq]
  · rw [requestGuides_pending]
    simp [isRequestParamsInitialized, clear_eq]

lemma failStreak_fatal (k : Nat) :
    ∀ s : MState, s.state = GuidesState.FatalNetworkError → failStreak k s = s := by
  induction k with
  | zero => intro s _; rfl
  | succ m ih =>
      intro s h
      show failStreak m (onFailureBody s.requestCounter s) = s
      rw [onFailureBody_absorbed _ _ (Or.inr h)]
      exact ih s h

lemma failStreak_add (a b : Nat) :
    ∀ s : MState, failStreak (a + b) s = failStreak a (failStreak b s) := by
  induction b with
  | zero => intro s; rfl
  | succ m ih =>
      intro s
      show failStreak (a + m + 1) s = _
      show failStreak (a + m) (onFailureBody s.requestCounter s) = _
      rw [ih]
      rfl

lemma updateViewport_requestCounter_absorbed (score : ScreenBase → ScreenBase → ℚ)
    (v : ScreenBase) (s : MState)
    (h : s.state = GuidesState.Disabled ∨ s.state = GuidesState.FatalNetworkError) :
    (updateViewport score v s).requestCounter = s.requestCounter := by
  unfold updateViewport
  dsimp only
  rw [if_pos h]

lemma galleryStep_foldl (s : MState) (l : List GuidesNode) :
    ∀ acc : List GalleryItem,
      l.foldl (galleryStep s) acc
        = acc ++ (l.filter
            (fun g => g.outdoorCount + g.sightsCount == 1)).map (galleryItemOf s) := by
  induction l with
  | nil => intro acc; simp
  | cons g t ih =>
      intro acc
      rw [List.foldl_cons, ih]
      by_cases hg : g.outdoorCount + g.sightsCount = 1
      · rw [List.filter_cons_of_pos (by simpa using hg)]
        rw [show galleryStep s acc g = acc ++ [galleryItemOf s g] by
          unfold galleryStep; rw [if_neg (by simpa using hg)]]
        simp
      · rw [List.filter_cons_of_neg (by simpa using hg)]
        rw [show galleryStep s acc g = acc by
          unfold galleryStep; rw [if_pos (by simpa using hg)]]

/-- C1 (counterexample): a reachable state with state `FatalNetworkError`
exists (reached by three consecutive failures, the third of which re-issued
request 4) in which delivering a success reply is not discarded: it mutates
the guide list, the state and the gallery listener log, contradicting the
claim that `FatalNetworkError` absorbs reply callbacks. -/
theorem C1_counterexample :
    Reachable constScore cexFatal ∧
    cexFatal.state = GuidesState.FatalNetworkError ∧
    (stepOp constScore cexFatal (Op.deliverSuccess 4 [gSingle])).guides
      ≠ cexFatal.guides ∧
    (stepOp constScore cexFatal (Op.deliverSuccess 4 [gSingle])).state
      ≠ cexFatal.state ∧
    (stepOp constScore cexFatal (Op.deliverSuccess 4 [gSingle])).galleryEvents
      ≠ cexFatal.galleryEvents :=
  ⟨⟨cexOps, rfl⟩, by decide, by decide, by decide, by decide⟩

/-- C1 (amended): `Disabled` absorbs both reply callbacks and
`FatalNetworkError` absorbs failure callbacks: such a delivery mutates none of
the guide list, the marks, the shown set, the counters, the state, and fires
no listener.  A success callback delivered in `FatalNetworkError` is NOT
absorbed (see the counterexample). -/
theorem C1_absorbing_states (score : ScreenBase → ScreenBase → ℚ) (s : MState)
    (n : Nat) (gs : List GuidesNode) :
    (s.state = GuidesState.Disabled →
       callbackUntouched s (stepOp score s (Op.deliverSuccess n gs)) ∧
       callbackUntouched s (stepOp score s (Op.deliverFailure n))) ∧
    (s.state = GuidesState.FatalNetworkError →
       callbackUntouched s (stepOp score s (Op.deliverFailure n))) := by
  have hrefl : callbackUntouched s s :=
    ⟨rfl, rfl, rfl, rfl, rfl, rfl, rfl, rfl, rfl, rfl, rfl⟩
  have hrem : callbackUntouched s (removePending n s) :=
    ⟨rfl, rfl, rfl, rfl, rfl, rfl, rfl, rfl, rfl, rfl, rfl⟩
  refine ⟨fun hd => ⟨?_, ?_⟩, fun hf => ?_⟩
  · show callbackUntouched s
      (if n ∈ s.pending then onSuccessBody gs (removePending n s) else s)
    split
    · rw [onSuccessBody_disabled gs (removePending n s) hd]
      exact hrem
    · exact hrefl
  · show callbackUntouched s
      (if n ∈ s.pending then onFailureBody n (removePending n s) else s)
    split
    · rw [onFailureBody_absorbed n (removePending n s) (Or.inl hd)]
      exact hrem
    · exact hrefl
  · show callbackUntouched s
      (if n ∈ s.pending then onFailureBody n (removePending n s) else s)
    split
    · rw [onFailureBody_absorbed n (removePending n s) (Or.inr hf)]
      exact hrem
    · exact hrefl

/-- C1 (witness): the absorbing theorem applied at the initial (Disabled)
state for both callbacks and at the concrete reachable Fatal state for a
failure callback. -/
theorem C1_witness :
    callbackUntouched initState
      (stepOp constScore initState (Op.deliverSuccess 1 [gSingle])) ∧
    callbackUntouched initState
      (stepOp constScore initState (Op.deliverFailure 1)) ∧
    callbackUntouched cexFatal
      (stepOp constScore cexFatal (Op.deliverFailure 4)) :=
  ⟨((C1_absorbing_states constScore initState 1 [gSingle]).1 rfl).1,
   ((C1_absorbing_states constScore initState 1 [gSingle]).1 rfl).2,
   (C1_absorbing_states constScore cexFatal 4 []).2 (by decide)⟩

/-- C2 (counterexample): on the trace `cexOps` (which never calls
`Reconnect`), the delivery of the third consecutive failure both enters
`FatalNetworkError` and dispatches catalog request 4: the re-request at the
end of the failure lambda runs on a state that is already
`FatalNetworkError`, contradicting "no request is dispatched while the state
is FatalNetworkError". -/
theorem C2_counterexample :
    Reachable constScore cexFatal ∧
    cexOps.all (fun o => o ≠ Op.reconnect) = true ∧
    c2pre.state = GuidesState.NetworkError ∧
    c2pre.requestCounter = 3 ∧
    stepOp constScore c2pre (Op.deliverFailure 3) = cexFatal ∧
    cexFatal.state = GuidesState.FatalNetworkError ∧
    cexFatal.requestCounter = 4 ∧
    cexFatal.pending = [4] ∧
    onFailureBody 3 (removePending 3 c2pre)
      = requestGuides (changeState GuidesState.FatalNetworkError
          (clear { removePending 3 c2pre with errorRequestsCount := 3 })) ∧
    (changeState GuidesState.FatalNetworkError
        (clear { removePending 3 c2pre with errorRequestsCount := 3 })).state
      = GuidesState.FatalNetworkError :=
  ⟨⟨cexOps, rfl⟩, by decide, by decide, by decide, by decide, by decide,
   by decide, by decide, by decide, by decide⟩

/-- C2 (amended): the third consecutive failure enters `FatalNetworkError`
and clears the guide data; however, when it answered the latest request and
the request params are initialized, the failing callback immediately
dispatches one further request (already in `FatalNetworkError`).  Failure
deliveries and viewport updates that arrive while the state is
`FatalNetworkError` dispatch nothing. -/
theorem C2_fatal_entry (s : MState) (n : Nat) :
    (s.state ≠ GuidesState.Disabled → s.state ≠ GuidesState.FatalNetworkError →
     s.errorRequestsCount + 1 = kRequestAttemptsCount →
       (onFailureBody n s).state = GuidesState.FatalNetworkError ∧
       (onFailureBody n s).guides = [] ∧
       (n = s.requestCounter → isRequestParamsInitialized s = true →
          (onFailureBody n s).requestCounter = s.requestCounter + 1)) ∧
    (s.state = GuidesState.FatalNetworkError →
       onFailureBody n s = s ∧
       ∀ (score : ScreenBase → ScreenBase → ℚ) (v : ScreenBase),
         (updateViewport score v s).requestCounter = s.requestCounter) := by
  constructor
  · intro h1 h2 h3
    unfold onFailureBody
    rw [if_neg (by simp [h1, h2])]
    dsimp only
    rw [if_pos (le_of_eq h3.symm)]
    refine ⟨?_, ?_, ?_⟩
    · split <;> simp
    · split <;> simp [clear_eq]
    · intro hn hinit
      have hinit2 : (s.screen.localRectEmptyInterior || s.zoom != 0) = true := hinit
      split
      · rw [requestGuides_requestCounter]
        simp [isRequestParamsInitialized, clear_eq, changeState, h2, hinit2]
      · next hc =>
          exfalso
          apply hc
          simp [clear_eq, changeState, h2, hn]
  · intro hf
    refine ⟨onFailureBody_absorbed n s (Or.inr hf), fun score v => ?_⟩
    exact updateViewport_requestCounter_absorbed score v s (Or.inr hf)

/-- C2 (witness): the fatal-entry theorem applied at the concrete state just
before the third failure, and the absorbed part at the concrete Fatal
state. -/
theorem C2_witness :
    (onFailureBody 3 (removePending 3 c2pre)).state
      = GuidesState.FatalNetworkError ∧
    (onFailureBody 3 (removePending 3 c2pre)).requestCounter
      = (removePending 3 c2pre).requestCounter + 1 ∧
    onFailureBody 9 cexFatal = cexFatal :=
  ⟨((C2_fatal_entry (removePending 3 c2pre) 3).1 (by decide) (by decide)
      (by decide)).1,
   ((C2_fatal_entry (removePending 3 c2pre) 3).1 (by decide) (by decide)
      (by decide)).2.2 (by decide) (by decide),
   ((C2_fatal_entry cexFatal 9).2 (by decide)).1⟩

/-- C3 (counterexample): a reachable `FatalNetworkError` state whose error
counter is 0, not ≥ 3: entering Fatal runs `Clear`, which resets the
counter before the state change. -/
theorem C3_counterexample :
    Reachable constScore cexFatal ∧
    cexFatal.state = GuidesState.FatalNetworkError ∧
    cexFatal.errorRequestsCount = 0 ∧
    ¬ kRequestAttemptsCount ≤ cexFatal.errorRequestsCount :=
  ⟨⟨cexOps, rfl⟩, by decide, by decide, by decide⟩

/-- C3 (amended): in every reachable state, `FatalNetworkError` implies the
error counter equals 0 (the entry path clears it and nothing increments it
while Fatal). -/
theorem C3_fatal_counter (score : ScreenBase → ScreenBase → ℚ) (s : MState)
    (h : Reachable score s) (hf : s.state = GuidesState.FatalNetworkError) :
    s.errorRequestsCount = 0 :=
  (coreInv_reachable score s h).1 hf

/-- C3 (witness): the amended invariant applied at the concrete reachable
Fatal state. -/
theorem C3_witness : cexFatal.errorRequestsCount = 0 :=
  C3_fatal_counter constScore cexFatal ⟨cexOps, rfl⟩ (by decide)

/-- C4 (counterexample): a state whose stored rectangle has EMPTY interior
and whose zoom is 0.  The spec's predicate ("non-empty interior OR zoom ≠ 0")
is false, yet `RequestGuides` dispatches a query: the source predicate reads
`IsEmptyInterior() || zoom != 0`. -/
theorem C4_counterexample :
    specParamsInitialized c4state = false ∧
    c4state.zoom = 0 ∧
    c4state.screen.localRectEmptyInterior = true ∧
    (requestGuides c4state).requestCounter = c4state.requestCounter + 1 :=
  ⟨by decide, by decide, by decide, by decide⟩

/-- C4 (amended): `RequestGuides` issues a catalog query (incrementing the
request counter and enqueuing the request) iff the stored rectangle has EMPTY
interior OR the stored zoom is nonzero — the source's literal
`IsRequestParamsInitialized`; when that predicate is false the call is a
no-op. -/
theorem C4_request_guard (s : MState) :
    ((requestGuides s).requestCounter = s.requestCounter + 1 ↔
       (s.screen.localRectEmptyInterior = true ∨ s.zoom ≠ 0)) ∧
    (isRequestParamsInitialized s = false → requestGuides s = s) ∧
    (isRequestParamsInitialized s = true →
       (requestGuides s).requestCounter = s.requestCounter + 1 ∧
       (requestGuides s).pending = s.pending ++ [s.requestCounter + 1]) := by
  by_cases hinit : isRequestParamsInitialized s
  · have hd : s.screen.localRectEmptyInterior = true ∨ s.zoom ≠ 0 := by
      simpa [isRequestParamsInitialized] using hinit
    refine ⟨⟨fun _ => hd, fun _ => ?_⟩, fun hfalse => ?_, fun _ => ⟨?_, ?_⟩⟩
    · rw [requestGuides_requestCounter, if_pos hinit]
    · simp [hinit] at hfalse
    · rw [requestGuides_requestCounter, if_pos hinit]
    · rw [requestGuides_pending, if_pos hinit]
  · have heq : requestGuides s = s := by
      unfold requestGuides; rw [if_neg hinit]
    have hnd : ¬ (s.screen.localRectEmptyInterior = true ∨ s.zoom ≠ 0) := by
      simpa [isRequestParamsInitialized] using hinit
    refine ⟨⟨fun hc => ?_, fun hd => absurd hd hnd⟩, fun _ => heq,
            fun htrue => absurd htrue hinit⟩
    rw [heq] at hc
    omega

/-- C4 (witness): the guard theorem applied at the uninitialized initial
state (no query) and at the degenerate `c4state` (query dispatched). -/
theorem C4_witness :
    requestGuides initState = initState ∧
    (requestGuides c4state).requestCounter = c4state.requestCounter + 1 :=
  ⟨(C4_request_guard initState).2.1 (by decide),
   ((C4_request_guard c4state).2.2 (by decide)).1⟩

/-- C5 (counterexample): a trace that never calls `SetEnabled(false)` on
which the shown-guides set shrinks: after one single guide is shown, a second
`SetEnabled(true)` (a state change from HasData to Enabled) clears
`m_shownGuides`. -/
theorem C5_counterexample :
    c5ops.all (fun o => o ≠ Op.setEnabled false) = true ∧
    c5ops = c5opsPre ++ [Op.setEnabled true] ∧
    (run constScore c5opsPre).shownGuides = {"g1"} ∧
    (run constScore c5ops).shownGuides = ∅ ∧
    ¬ (run constScore c5opsPre).shownGuides ⊆ (run constScore c5ops).shownGuides :=
  ⟨by decide, rfl, by decide, by decide, by decide⟩

/-- C5 (amended): along any operation sequence containing no `SetEnabled`
call at all (with either argument), the shown-guides set never shrinks. -/
theorem C5_shown_monotone (score : ScreenBase → ScreenBase → ℚ)
    (ops : List Op) (s : MState) (h : ∀ b, Op.setEnabled b ∉ ops) :
    s.shownGuides ⊆ (ops.foldl (stepOp score) s).shownGuides := by
  induction ops generalizing s with
  | nil => exact Finset.Subset.refl _
  | cons op t ih =>
      rw [List.foldl_cons]
      refine Finset.Subset.trans
        (stepOp_shownGuides_mono score s op fun b heq => ?_)
        (ih (stepOp score s op) fun b hb => ?_)
      · exact h b (heq ▸ List.mem_cons_self op t)
      · exact h b (List.mem_cons_of_mem op hb)

/-- C5 (witness): the monotonicity theorem applied to a concrete state and a
concrete `SetEnabled`-free suffix. -/
theorem C5_witness :
    (run constScore c5opsPre).shownGuides ⊆
      ([Op.deliverFailure 2].foldl (stepOp constScore)
        (run constScore c5opsPre)).shownGuides :=
  C5_shown_monotone constScore [Op.deliverFailure 2]
    (run constScore c5opsPre) (by decide)

/-- C6 (counterexample): a guide record with zero combined count is a
"single" by the spec's definition (combined count does not exceed one), yet
`GetGallery` produces no item for it: the source loop keeps exactly the
records whose combined count equals one. -/
theorem C6_counterexample :
    specIsSingle gZero ∧
    c6state.guides = [gZero] ∧
    (getGallery c6state).items = [] :=
  ⟨by show gZero.sightsCount + gZero.outdoorCount ≤ 1; decide, rfl, by decide⟩

/-- C6 (amended): `GetGallery` is a read-only derivation producing, in
guide-list order, exactly one item per record whose combined sights + outdoor
count equals one; cluster records (count > 1) and empty records (count 0)
produce no item. -/
theorem C6_gallery_projection (s : MState) :
    (getGallery s).items
      = (s.guides.filter
          (fun g => g.outdoorCount + g.sightsCount == 1)).map (galleryItemOf s) := by
  show s.guides.foldl (galleryStep s) [] = _
  rw [galleryStep_foldl]
  simp

/-- C7: starting from any non-Disabled, non-Fatal state with no recorded
failures, after exactly `k` consecutive failure deliveries (each answering
the latest dispatched request, with no intervening success) the state is
`NetworkError` for `k ∈ {1, 2}` and `FatalNetworkError` for every `k ≥ 3`. -/
theorem C7_retry_budget (s : MState) (k : Nat)
    (h1 : s.state ≠ GuidesState.Disabled)
    (h2 : s.state ≠ GuidesState.FatalNetworkError)
    (h0 : s.errorRequestsCount = 0) :
    ((k = 1 ∨ k = 2) → (failStreak k s).state = GuidesState.NetworkError) ∧
    (3 ≤ k → (failStreak k s).state = GuidesState.FatalNetworkError) := by
  have hs1 := onFailureBody_effect s.requestCounter s h1 h2
  have hlt1 : s.errorRequestsCount + 1 < kRequestAttemptsCount := by
    rw [h0]; decide
  obtain ⟨st1, er1, -⟩ := hs1.2 hlt1
  have hne1d : (onFailureBody s.requestCounter s).state ≠ GuidesState.Disabled := by
    simp [st1]
  have hne1f : (onFailureBody s.requestCounter s).state
      ≠ GuidesState.FatalNetworkError := by
    simp [st1]
  have hs2 := onFailureBody_effect
    (onFailureBody s.requestCounter s).requestCounter
    (onFailureBody s.requestCounter s) hne1d hne1f
  have hlt2 : (onFailureBody s.requestCounter s).errorRequestsCount + 1
      < kRequestAttemptsCount := by
    rw [er1, h0]; decide
  obtain ⟨st2, er2, -⟩ := hs2.2 hlt2
  have hne2d :
      (onFailureBody (onFailureBody s.requestCounter s).requestCounter
        (onFailureBody s.requestCounter s)).state ≠ GuidesState.Disabled := by
    simp [st2]
  have hne2f :
      (onFailureBody (onFailureBody s.requestCounter s).requestCounter
        (onFailureBody s.requestCounter s)).state
      ≠ GuidesState.FatalNetworkError := by
    simp [st2]
  have hs3 := onFailureBody_effect
    (onFailureBody (onFailureBody s.requestCounter s).requestCounter
      (onFailureBody s.requestCounter s)).requestCounter
    (onFailureBody (onFailureBody s.requestCounter s).requestCounter
      (onFailureBody s.requestCounter s)) hne2d hne2f
  have hge3 :
      kRequestAttemptsCount ≤
        (onFailureBody (onFailureBody s.requestCounter s).requestCounter
          (onFailureBody s.requestCounter s)).errorRequestsCount + 1 := by
    rw [er2, er1, h0]; decide
  obtain ⟨st3, -, -⟩ := hs3.1 hge3
  constructor
  · rintro (rfl | rfl)
    · exact st1
    · exact st2
  · intro hk
    obtain ⟨m, rfl⟩ := Nat.exists_eq_add_of_le hk
    have hsplit : failStreak (3 + m) s = failStreak m (failStreak 3 s) := by
      rw [Nat.add_comm]
      exact failStreak_add m 3 s
    rw [hsplit]
    have hf3 : (failStreak 3 s).state = GuidesState.FatalNetworkError := st3
    rw [failStreak_fatal m (failStreak 3 s) hf3]
    exact hf3

/-- C7 (witness): one and three consecutive failures from a concrete Enabled
state with initialized request params. -/
theorem C7_witness :
    (failStreak 1 c7start).state = GuidesState.NetworkError ∧
    (failStreak 3 c7start).state = GuidesState.FatalNetworkError :=
  ⟨(C7_retry_budget c7start 1 (by decide) (by decide) (by decide)).1 (Or.inl rfl),
   (C7_retry_budget c7start 3 (by decide) (by decide) (by decide)).2 (by decide)⟩

/-- C8 (counterexample): after `UpdateViewport` recorded `vB1` and dispatched
request 2 for it, three failures put the controller in `FatalNetworkError`.
A further `UpdateViewport` with `vB2` (same scale as `vB1`, full overlap,
valid rectangle) then RECORDS the new viewport (the Disabled/Fatal branch
stores the screen), contradicting "returns ... without recording the new
viewport"; no request is issued. -/
theorem C8_counterexample :
    Reachable fullScore c8pre ∧
    c8mid.screen = vB1 ∧
    c8mid.requestCounter = 2 ∧
    c8pre.state = GuidesState.FatalNetworkError ∧
    c8pre.screen = vB1 ∧
    vB2.scale = vB1.scale ∧
    fullScore vB1 vB2 > 8 / 10 ∧
    vB2.localRectEmptyInterior = false ∧
    (updateViewport fullScore vB2 c8pre).screen = vB2 ∧
    vB2 ≠ vB1 :=
  ⟨⟨c8ops, rfl⟩, by with_unfolding_all decide, by with_unfolding_all decide,
   by with_unfolding_all decide, by with_unfolding_all decide,
   by with_unfolding_all decide, by with_unfolding_all decide,
   by with_unfolding_all decide, by with_unfolding_all decide,
   by with_unfolding_all decide⟩

/-- C8 (amended): when the request params are initialized (a request has been
issued for the stored viewport), the stored scale is positive, the new
viewport's scale differs from the stored one by at most 10% and the overlap
score exceeds 0.8, `UpdateViewport` issues no request; when additionally the
state is neither `Disabled` nor `FatalNetworkError` it returns with the whole
state unchanged (in `Disabled`/`FatalNetworkError` it still records the new
viewport). -/
theorem C8_coalescing (score : ScreenBase → ScreenBase → ℚ) (v : ScreenBase)
    (s : MState)
    (hinit : isRequestParamsInitialized s = true)
    (hpos : 0 < s.screen.scale)
    (hscale : |s.screen.scale - v.scale| ≤ s.screen.scale / 10)
    (hscore : score s.screen v > 8 / 10) :
    (updateViewport score v s).requestCounter = s.requestCounter ∧
    (updateViewport score v s).pending = s.pending ∧
    (s.state ≠ GuidesState.Disabled → s.state ≠ GuidesState.FatalNetworkError →
       updateViewport score v s = s) := by
  have hstrong : ¬ (|s.screen.scale - v.scale| / s.screen.scale > kScaleEps) := by
    intro hgt
    have hle : |s.screen.scale - v.scale| / s.screen.scale ≤ 1 / 10 := by
      rw [div_le_div_iff₀ hpos (by norm_num : (0 : ℚ) < 10)]
      linarith
    have hcontra : kScaleEps < 1 / 10 := lt_of_lt_of_le hgt hle
    norm_num [kScaleEps] at hcontra
  by_cases hd : s.state = GuidesState.Disabled ∨
      s.state = GuidesState.FatalNetworkError
  · unfold updateViewport
    dsimp only
    rw [if_pos hd]
    refine ⟨rfl, rfl, fun hnd hnf => ?_⟩
    rcases hd with hx | hx
    · exact absurd hx hnd
    · exact absurd hx hnf
  · unfold updateViewport
    dsimp only
    rw [if_neg hd]
    by_cases hemp : v.localRectEmptyInterior
    · rw [if_pos hemp]
      exact ⟨rfl, rfl, fun _ _ => rfl⟩
    · rw [if_neg hemp, if_pos ⟨hinit, hstrong, hscore⟩]
      exact ⟨rfl, rfl, fun _ _ => rfl⟩

/-- C8 (witness): the coalescing theorem at the concrete Enabled state that
recorded `vB1` and issued request 2, with the close viewport `vB2`. -/
theorem C8_witness :
    (updateViewport fullScore vB2 c8mid).requestCounter = c8mid.requestCounter ∧
    updateViewport fullScore vB2 c8mid = c8mid :=
  ⟨(C8_coalescing fullScore vB2 c8mid (by with_unfolding_all decide)
      (by with_unfolding_all decide) (by with_unfolding_all decide)
      (by with_unfolding_all decide)).1,
   (C8_coalescing fullScore vB2 c8mid (by with_unfolding_all decide)
      (by with_unfolding_all decide) (by with_unfolding_all decide)
      (by with_unfolding_all decide)).2.2 (by with_unfolding_all decide)
      (by with_unfolding_all decide)⟩

/-- C9: in every reachable controller state, `HasData` implies the stored
guide list is non-empty and `NoData` implies it is empty (spec P1). -/
theorem C9_state_emptiness (score : ScreenBase → ScreenBase → ℚ) (s : MState)
    (h : Reachable score s) :
    (s.state = GuidesState.HasData → s.guides ≠ []) ∧
    (s.state = GuidesState.NoData → s.guides = []) :=
  ⟨(coreInv_reachable score s h).2.1, (coreInv_reachable score s h).2.2⟩

/-- C9 (witness): the invariant applied at a concrete reachable `HasData`
state and a concrete reachable `NoData` state. -/
theorem C9_witness :
    (run constScore c5opsPre).guides ≠ [] ∧
    (run constScore [Op.updateViewport vA, Op.setEnabled true,
        Op.deliverSuccess 1 []]).guides = [] :=
  ⟨(C9_state_emptiness constScore (run constScore c5opsPre)
      ⟨c5opsPre, rfl⟩).1 (by decide),
   (C9_state_emptiness constScore
      (run constScore [Op.updateViewport vA, Op.setEnabled true,
        Op.deliverSuccess 1 []])
      ⟨[Op.updateViewport vA, Op.setEnabled true, Op.deliverSuccess 1 []],
        rfl⟩).2 (by decide)⟩

/-- C10 (counterexample): a `NoData` state whose request params are not
initialized: `SetEnabled(true)` clears and transitions to `Enabled` but
issues NO request (the `RequestGuides` guard fails), contradicting the
unconditional "issues a new request". -/
theorem C10_counterexample :
    c10state.state = GuidesState.NoData ∧
    isRequestParamsInitialized c10state = false ∧
    (setEnabled true c10state).state = GuidesState.Enabled ∧
    (setEnabled true c10state).requestCounter = c10state.requestCounter ∧
    (setEnabled true c10state).pending = c10state.pending :=
  ⟨by decide, by decide, by decide, by decide, by decide⟩

/-- C10 (amended): `SetEnabled(true)` is a no-op exactly when the state is
already `Enabled`; from any other non-Disabled state it clears the guide
list, the active guide id and the error counter, empties the shown-guides
set, transitions to `Enabled` firing the state listener, and issues a new
request provided the request params are initialized (otherwise no request is
dispatched). -/
theorem C10_setEnabled_true (s : MState) :
    (s.state = GuidesState.Enabled → setEnabled true s = s) ∧
    (s.state ≠ GuidesState.Enabled → s.state ≠ GuidesState.Disabled →
       (setEnabled true s).state = GuidesState.Enabled ∧
       (setEnabled true s).guides = [] ∧
       (setEnabled true s).activeGuide = "" ∧
       (setEnabled true s).errorRequestsCount = 0 ∧
       (setEnabled true s).shownGuides = ∅ ∧
       (setEnabled true s).stateEvents = s.stateEvents ++ [GuidesState.Enabled] ∧
       (isRequestParamsInitialized s = true →
          (setEnabled true s).requestCounter = s.requestCounter + 1 ∧
          (setEnabled true s).pending = s.pending ++ [s.requestCounter + 1]) ∧
       (isRequestParamsInitialized s = false →
          (setEnabled true s).requestCounter = s.requestCounter ∧
          (setEnabled true s).pending = s.pending)) := by
  constructor
  · intro he
    exact setEnabled_noop true s he
  · intro hne _
    obtain ⟨a1, a2, a3, a4, a5, a6, a7, a8⟩ := setEnabled_true_effect s hne
    refine ⟨a1, a2, a3, a4, a5, a6, fun ht => ⟨?_, ?_⟩, fun hf => ⟨?_, ?_⟩⟩
    · rw [a7, if_pos ht]
    · rw [a8, if_pos ht]
    · rw [a7, if_neg (by simp [hf])]
    · rw [a8, if_neg (by simp [hf])]

/-- C10 (witness): the no-op part at a concrete `Enabled` state and the
full-effect part at a concrete reachable `HasData` state with initialized
params. -/
theorem C10_witness :
    setEnabled true (run constScore [Op.updateViewport vA, Op.setEnabled true])
      = run constScore [Op.updateViewport vA, Op.setEnabled true] ∧
    (setEnabled true (run constScore c5opsPre)).state = GuidesState.Enabled ∧
    (setEnabled true (run constScore c5opsPre)).requestCounter
      = (run constScore c5opsPre).requestCounter + 1 :=
  ⟨(C10_setEnabled_true
      (run constScore [Op.updateViewport vA, Op.setEnabled true])).1 (by decide),
   ((C10_setEnabled_true (run constScore c5opsPre)).2
      (by decide) (by decide)).1,
   (((C10_setEnabled_true (run constScore c5opsPre)).2
      (by decide) (by decide)).2.2.2.2.2.2.1 (by decide)).1⟩
